import Mathlib

/-!
# Verification of the bbb-player download pipeline (`bbb-player.py`)

A shallow embedding of the download-and-materialize pipeline of
`bbb-player.py`: the session-URL resolver (`downloadScript`, lines 249-308),
the fixed-manifest fetch loop (`downloadFiles`, lines 54-77), the
metadata-driven slide expansion (`downloadSlides`, lines 80-145), and the
UI listing boundary (`hello`, lines 219-239).

Modelling conventions:
* Remote fetch outcomes are an environment oracle (`FetchOutcome` keyed by
  URL); Python exceptions raised inside a per-file `try` block are the
  `PyExc` type, and the two `except` clauses of the source are the
  `runHandlers` function.
* Local filesystem writes (directory creation, the `copy_tree` of the
  bundled player, writing the sentinel) are modelled as infallible; the
  only local file the pipeline later *reads* is `presentation_text.json`,
  whose (parsed) content is threaded explicitly.
* `os.path.join` is modelled for the POSIX case with a second component
  that does not itself start with `/` (the only case the pipeline hits for
  the paths the claims mention).
* Python's `re.search` for the one concrete pattern
  `/?(\d+\.\d+)/.*?([0-9a-f]{40}-\d{13})/?` (IGNORECASE) is embedded as a
  direct backtracking matcher, `searchURL`, with `\d` taken as the ASCII
  digits and `[0-9a-f]` with IGNORECASE as the ASCII hex characters.
-/

namespace BBB

/-! ## Session-URL pattern (`re.search` at bbb-player.py:251-253) -/

/-- `[0-9a-f]` under `re.IGNORECASE`: ASCII hex digit, either case. -/
def isHexChar (c : Char) : Bool :=
  c.isDigit || ('a' ≤ c && c ≤ 'f') || ('A' ≤ c && c ≤ 'F')

/-- Match `(\d+\.\d+)/` at the head of `l`: a maximal nonempty digit run,
a dot, a maximal nonempty digit run, then a slash.  (The regex engine's
backtracking into either `\d+` cannot succeed, because the character
after a shortened digit run would have to be both a digit and `.`/`/`,
so the greedy, non-backtracking reading is faithful.)  Returns the text
of capture group 1 and the rest of the input. -/
def matchG1 (l : List Char) : Option (String × List Char) :=
  match l.span Char.isDigit with
  | (d1, rest) =>
    if d1.isEmpty then none else
    match rest with
    | '.' :: r2 =>
      match r2.span Char.isDigit with
      | (d2, r3) =>
        if d2.isEmpty then none else
        match r3 with
        | '/' :: r4 => some (((d1 ++ '.' :: d2).asString), r4)
        | _ => none
    | _ => none

/-- Match `([0-9a-f]{40}-\d{13})` at the head of `l` (IGNORECASE):
exactly 40 hex characters, a literal `-`, exactly 13 digits.  Returns
the hex part and the digit part of capture group 2. -/
def matchG2 (l : List Char) : Option (List Char × List Char) :=
  if (l.take 40).length = 40 && (l.take 40).all isHexChar then
    match l.drop 40 with
    | '-' :: r2 =>
      if (r2.take 13).length = 13 && (r2.take 13).all Char.isDigit
      then some (l.take 40, r2.take 13)
      else none
    | _ => none
  else none

/-- The lazy `.*?` before group 2: try group 2 at the nearest offset
first; `.` does not match `\n`, so scanning stops at a newline. -/
def findG2 : List Char → Option (List Char × List Char)
  | [] => none
  | c :: rest =>
    match matchG2 (c :: rest) with
    | some r => some r
    | none => if c = '\n' then none else findG2 rest

/-- The leading `/?` of the pattern: if the character at the match
position is a slash it is consumed (trying the pattern without
consuming it cannot succeed, since `\d+` does not match `/`). -/
def dropLeadingSlash : List Char → List Char
  | '/' :: r => r
  | l => l

/-- Attempt the whole pattern at one start position; on success returns
the two capture groups (protocol version, session id).  The trailing
`/?` of the pattern is optional and captures nothing, so it is not
represented. -/
def tryAt (l : List Char) : Option (String × String) :=
  match matchG1 (dropLeadingSlash l) with
  | none => none
  | some (g1, rest) =>
    match findG2 rest with
    | none => none
    | some (h, d) => some (g1, (h ++ '-' :: d).asString)

/-- `re.search`: try each start position from the left; the first
position admitting a match wins. -/
def searchURL : List Char → Option (String × String)
  | [] => none
  | c :: rest =>
    match tryAt (c :: rest) with
    | some r => some r
    | none => searchURL rest

/-- Shape of a captured session id: exactly 40 hex characters, `-`,
exactly 13 decimal digits. -/
def sessionIdShape (s : String) : Prop :=
  ∃ h d : List Char, s = (h ++ '-' :: d).asString ∧
    h.length = 40 ∧ h.all isHexChar = true ∧
    d.length = 13 ∧ d.all Char.isDigit = true

/-! ## Per-file fetch model (bbb-player.py:65-77, 101-115, 131-145) -/

/-- Outcome the remote/transport layer would produce for one URL
(environment oracle): the transfer succeeds, raises
`urllib.error.HTTPError` with some status code, or raises some other
exception. -/
inductive FetchOutcome where
  | success
  | httpError (code : Nat)
  | otherFailure
  deriving DecidableEq, Repr

/-- A Python exception escaping the `try` body of a per-file fetch. -/
inductive PyExc where
  /-- `urllib.error.HTTPError` with its status code. -/
  | httpError (code : Nat)
  /-- The `NameError` raised by evaluating the undefined name `bar` in
  `reporthook=bar.on_urlretrieve if bar else None` (bbb-player.py:71,
  108, 138): `bar` is a local of `downloadScript`, not in scope in
  `downloadFiles`/`downloadSlides`. -/
  | nameError
  /-- Any other exception from the transfer. -/
  | other
  deriving DecidableEq, Repr

/-- Log events emitted by the fetch `except` clauses (tags only; the
message text is not modelled). -/
inductive LogEvent where
  /-- `logger.warning(f"Did not download ...")` on a 404. -/
  | warning404
  /-- `logger.exception("")`: the full traceback. -/
  | exceptionTrace
  deriving DecidableEq, Repr

/-- The `try` body of one per-file fetch.  With the accelerated backend
(`smartDlEnabled`), `SmartDL(...).start()` runs and its outcome is the
oracle's; without it, the `urllib.request.urlretrieve(...)` call first
evaluates `bar`, raising `NameError` before any transfer is attempted. -/
def fetchBody (smartDl : Bool) (out : FetchOutcome) : Except PyExc Unit :=
  if smartDl then
    match out with
    | .success => .ok ()
    | .httpError c => .error (.httpError c)
    | .otherFailure => .error .other
  else .error .nameError

/-- The two `except` clauses guarding every per-file fetch
(bbb-player.py:72-77): `except urllib.error.HTTPError as e` logs a
warning only when `e.code == 404` (any other status code falls through
the `if` with no action); `except Exception` calls
`logger.exception("")`.  Returns the logs emitted and the exception
propagated out of the handlers, if any. -/
def runHandlers (e : PyExc) : List LogEvent × Option PyExc :=
  match e with
  | .httpError c => (if c = 404 then [.warning404] else [], none)
  | .nameError => ([.exceptionTrace], none)
  | .other => ([.exceptionTrace], none)

/-- One attempted per-file fetch: target URL, local save path, what the
`try` body did (`ok` = bytes retrieved and written), the handler logs,
and the exception the iteration let escape, if any. -/
structure Attempt where
  url : String
  savePath : String
  raised : Except PyExc Unit
  logs : List LogEvent
  propagated : Option PyExc
  deriving Repr

/-- Build the record of one fetch iteration from the environment. -/
def attemptFile (smartDl : Bool) (outcome : String → FetchOutcome)
    (url savePath : String) : Attempt :=
  match fetchBody smartDl (outcome url) with
  | .ok _ => { url := url, savePath := savePath, raised := .ok (),
               logs := [], propagated := none }
  | .error e => { url := url, savePath := savePath, raised := .error e,
                  logs := (runHandlers e).1, propagated := (runHandlers e).2 }

/-- A fetch loop over (url, savePath) pairs.  If an iteration let an
exception escape its handlers, the loop (and the enclosing function)
would abort there with that exception; otherwise the next pair is
attempted. -/
def runFetchLoop (smartDl : Bool) (outcome : String → FetchOutcome) :
    List (String × String) → List Attempt × Option PyExc
  | [] => ([], none)
  | p :: rest =>
    let a := attemptFile smartDl outcome p.1 p.2
    match a.propagated with
    | some e => ([a], some e)
    | none =>
      let r := runFetchLoop smartDl outcome rest
      (a :: r.1, r.2)

/-! ## Fixed manifest (`downloadFiles`, bbb-player.py:54-77) -/

/-- `filesForDL`: the static manifest, in declared order
(bbb-player.py:55-56). -/
def filesForDL : List String :=
  ["captions.json", "cursor.xml", "deskshare.xml",
   "presentation/deskshare.png", "metadata.xml", "panzooms.xml",
   "presentation_text.json", "shapes.svg", "slides_new.xml",
   "video/webcams.webm", "video/webcams.mp4",
   "deskshare/deskshare.webm", "deskshare/deskshare.mp4"]

/-- `os.path.join(a, b)` on POSIX, for a second component not starting
with `/`: a separator is inserted unless `a` already ends with one
(`join(a, "") = a + "/"`). -/
def joinPath (a b : String) : String :=
  if a.data.getLast? = some '/' then a ++ b else a ++ "/" ++ b

/-- The (url, savePath) pairs of the manifest loop:
`downloadURL = baseURL + file`, `savePath = os.path.join(basePath, file)`. -/
def manifestPairs (baseURL basePath : String) : List (String × String) :=
  filesForDL.map (fun f => (baseURL ++ f, joinPath basePath f))

/-- `downloadFiles(baseURL, basePath)`: fetch every manifest entry in
order; returns the attempts made and the exception that escaped the
loop, if any. -/
def downloadFiles (smartDl : Bool) (outcome : String → FetchOutcome)
    (baseURL basePath : String) : List Attempt × Option PyExc :=
  runFetchLoop smartDl outcome (manifestPairs baseURL basePath)

/-! ## Parsed JSON values and the slide expansion
(`downloadSlides`, bbb-player.py:80-145) -/

/-- A parsed JSON value as produced by `json.load`.  `obj` stands for a
Python `dict` after parsing: keys are distinct and listed in document
(= insertion = iteration) order. -/
inductive Json where
  | null
  | bool (b : Bool)
  | num (n : Int)
  | str (s : String)
  | arr (items : List Json)
  | obj (entries : List (String × Json))
  deriving Repr

/-- Python `len` on a parsed JSON value: defined for strings, lists and
dicts; `none` models the `TypeError` raised on numbers, booleans and
`None`. -/
def lenPy : Json → Option Nat
  | .str s => some s.length
  | .arr l => some l.length
  | .obj l => some l.length
  | _ => none

/-- Fatal ends of `downloadSlides` (nothing inside it catches these). -/
inductive SlidesFatal where
  /-- `open(basePath + '/presentation_text.json')` raised
  (e.g. `FileNotFoundError`). -/
  | fileError
  /-- `json.load(f)` raised (malformed document). -/
  | parseError
  /-- A dynamic-type error outside the per-file `try` blocks
  (`TypeError`/`IndexError` from `len(data[element])`, iteration of a
  non-iterable document, or `os.path.join` on a non-string), which
  nothing in `downloadSlides` catches. -/
  | uncaughtExc
  /-- A per-file fetch exception that escaped its handlers (proved
  unreachable below). -/
  | escapedFetch (e : PyExc)
  deriving DecidableEq, Repr

/-- What one run of `downloadSlides` did: fetch attempts in order,
directories created in order, and the fatal exception that escaped, if
any. -/
structure SlidesResult where
  attempts : List Attempt
  mkdirs : List String
  status : Option SlidesFatal
  deriving Repr

/-- `os.path.join(basePath, 'presentation', element)`. -/
def elemDirOf (basePath element : String) : String :=
  joinPath (joinPath basePath "presentation") element

/-- `os.path.join(basePath, 'presentation', element, 'thumbnails')`. -/
def thumbDirOf (basePath element : String) : String :=
  joinPath (elemDirOf basePath element) "thumbnails"

/-- (url, savePath) pairs of the slide-image loop
(`for i in range(1, noSlides+1)`, bbb-player.py:91-99). -/
def slidePairs (baseURL basePath element : String) (n : Nat) :
    List (String × String) :=
  (List.range n).map (fun k =>
    (baseURL ++ "presentation/" ++ element ++ "/slide-" ++
       toString (k + 1) ++ ".png",
     joinPath (elemDirOf basePath element)
       ("slide-" ++ toString (k + 1) ++ ".png")))

/-- (url, savePath) pairs of the thumbnail loop
(bbb-player.py:122-129). -/
def thumbPairs (baseURL basePath element : String) (n : Nat) :
    List (String × String) :=
  (List.range n).map (fun k =>
    (baseURL ++ "presentation/" ++ element ++ "/thumbnails/thumb-" ++
       toString (k + 1) ++ ".png",
     joinPath (thumbDirOf basePath element)
       ("thumb-" ++ toString (k + 1) ++ ".png")))

/-- Processing of one element of the metadata document
(bbb-player.py:85-145): `noSlides = len(data[element])` (a `TypeError`
here is fatal and precedes any directory creation or fetch), then the
element directory, the slide loop, the thumbnails directory, and the
thumbnail loop. -/
def processEntry (smartDl : Bool) (outcome : String → FetchOutcome)
    (baseURL basePath element : String) (v : Json) : SlidesResult :=
  match lenPy v with
  | none => { attempts := [], mkdirs := [], status := some .uncaughtExc }
  | some n =>
    match runFetchLoop smartDl outcome (slidePairs baseURL basePath element n) with
    | (sa, some e) =>
      { attempts := sa, mkdirs := [elemDirOf basePath element],
        status := some (.escapedFetch e) }
    | (sa, none) =>
      match runFetchLoop smartDl outcome (thumbPairs baseURL basePath element n) with
      | (ta, some e) =>
        { attempts := sa ++ ta,
          mkdirs := [elemDirOf basePath element, thumbDirOf basePath element],
          status := some (.escapedFetch e) }
      | (ta, none) =>
        { attempts := sa ++ ta,
          mkdirs := [elemDirOf basePath element, thumbDirOf basePath element],
          status := none }

/-- `for element in data:` over the entries of a dict document, in
iteration order; a fatal error in one element's processing aborts the
whole loop there. -/
def processEntries (smartDl : Bool) (outcome : String → FetchOutcome)
    (baseURL basePath : String) : List (String × Json) → SlidesResult
  | [] => { attempts := [], mkdirs := [], status := none }
  | (k, v) :: rest =>
    let r := processEntry smartDl outcome baseURL basePath k v
    match r.status with
    | some e => { attempts := r.attempts, mkdirs := r.mkdirs, status := some e }
    | none =>
      let r2 := processEntries smartDl outcome baseURL basePath rest
      { attempts := r.attempts ++ r2.attempts,
        mkdirs := r.mkdirs ++ r2.mkdirs, status := r2.status }

/-- `downloadSlides` on an already-parsed document.  A dict iterates its
entries.  A non-dict document raises an uncaught exception at (or
before) its first iteration — `for element in data` over a number,
boolean or `None` is a `TypeError`; over a nonempty list or string,
`len(data[element])` / `os.path.join(..., element)` raises
`TypeError`/`IndexError` before any fetch — while an empty list or
empty string iterates zero times and returns normally. -/
def downloadSlidesData (smartDl : Bool) (outcome : String → FetchOutcome)
    (baseURL basePath : String) : Json → SlidesResult
  | .obj entries => processEntries smartDl outcome baseURL basePath entries
  | .arr items =>
    if items.isEmpty then { attempts := [], mkdirs := [], status := none }
    else { attempts := [], mkdirs := [], status := some .uncaughtExc }
  | .str s =>
    if s.isEmpty then { attempts := [], mkdirs := [], status := none }
    else { attempts := [], mkdirs := [], status := some .uncaughtExc }
  | _ => { attempts := [], mkdirs := [], status := some .uncaughtExc }

/-- `downloadSlides(baseURL, basePath)` (bbb-player.py:80-145), with the
local `presentation_text.json` given as `metadata`: `none` when the file
does not exist (the `open` raises), `some (.error ())` when it exists
but `json.load` raises, `some (.ok j)` when it parses to `j`. -/
def downloadSlidesRun (smartDl : Bool) (outcome : String → FetchOutcome)
    (baseURL basePath : String) (metadata : Option (Except Unit Json)) :
    SlidesResult :=
  match metadata with
  | none => { attempts := [], mkdirs := [], status := some .fileError }
  | some (.error _) => { attempts := [], mkdirs := [], status := some .parseError }
  | some (.ok j) => downloadSlidesData smartDl outcome baseURL basePath j

/-- A parsed metadata document on which `downloadSlides` returns
normally: a dict each of whose values supports `len`, or one of the
degenerate documents `[]` and `""`, over which `for element in data`
iterates zero times so the loop body (and its uncaught errors) is never
reached. -/
def wellShaped : Json → Bool
  | .obj entries => entries.all (fun kv => (lenPy kv.2).isSome)
  | .arr items => items.isEmpty
  | .str s => s.isEmpty
  | _ => false

/-! ## The whole pipeline (`downloadScript`, bbb-player.py:249-308) -/

/-- The environment of one `downloadScript` invocation: backend
availability, the transport oracle, the scheme/netloc `urlparse` reads
off the input URL (the library call is not re-modelled), the script
directory, the parsed content of a pre-existing local
`presentation_text.json` (if any), the parsed content the remote would
serve for it, and whether the sentinel file already exists in the
target directory. -/
structure Env where
  smartDl : Bool
  outcome : String → FetchOutcome
  scheme : String
  netloc : String
  scriptDir : String
  localMetadataPre : Option (Except Unit Json)
  remoteMetadata : Except Unit Json
  sentinelPre : Bool

/-- Fatal ends of a `downloadScript` run. -/
inductive Fatal where
  /-- The session-id pattern did not match: `exit(1)`
  (bbb-player.py:259-261). -/
  | invalidURL
  /-- A manifest-loop fetch exception escaped its handlers (proved
  unreachable below). -/
  | escapedFetch (e : PyExc)
  /-- `downloadSlides` raised. -/
  | slides (e : SlidesFatal)
  deriving DecidableEq, Repr

/-- Observable effects of one `downloadScript` run. -/
structure RunResult where
  attempts : List Attempt
  dirsCreated : List String
  sentinelWritten : Bool
  fatal : Option Fatal
  deriving Repr

/-- `baseURL = "{}://{}/presentation/{}/".format(scheme, netloc, meetingId)`
(bbb-player.py:263-265). -/
def baseURLOf (env : Env) (meetingId : String) : String :=
  env.scheme ++ "://" ++ env.netloc ++ "/presentation/" ++ meetingId ++ "/"

/-- `os.path.join(SCRIPT_DIR, DOWNLOADED_MEETINGS_FOLDER)`. -/
def meetingsRootOf (env : Env) : String :=
  joinPath env.scriptDir "downloadedMeetings"

/-- `folderPath` (bbb-player.py:268-273): the user-supplied name when it
is truthy (nonempty), else the meeting id, under the meetings root. -/
def folderPathOf (env : Env) (meetingId meetingNameWanted : String) : String :=
  if meetingNameWanted = "" then joinPath (meetingsRootOf env) meetingId
  else joinPath (meetingsRootOf env) meetingNameWanted

/-- `foldersToCreate` (bbb-player.py:283-287): the session root (via
`join(folderPath, "")`) and its `video`, `deskshare`, `presentation`
subdirectories. -/
def provisionDirs (folderPath : String) : List String :=
  [joinPath folderPath "", joinPath folderPath "video",
   joinPath folderPath "deskshare", joinPath folderPath "presentation"]

/-- Local `presentation_text.json` after the manifest loop: overwritten
with the remote content when the accelerated backend is present and its
fetch succeeded; otherwise whatever was there before (without the
backend the `urlretrieve` call dies on the `bar` `NameError` before
transferring anything). -/
def metadataAfter (env : Env) (baseURL : String) : Option (Except Unit Json) :=
  if env.smartDl ∧ env.outcome (baseURL ++ "presentation_text.json") = .success
  then some env.remoteMetadata
  else env.localMetadataPre

/-- `downloadScript` after a successful id match, with `meetingId` the
captured group (bbb-player.py:263-308): short-circuit on the sentinel,
else provision directories, run the manifest loop, run the slide
expansion, copy the bundled player (modelled infallible), and write the
sentinel iff nothing fatal escaped. -/
def downloadScriptCore (env : Env) (meetingId meetingNameWanted : String) :
    RunResult :=
  if env.sentinelPre then
    { attempts := [], dirsCreated := [], sentinelWritten := false, fatal := none }
  else
    let baseURL := baseURLOf env meetingId
    let folderPath := folderPathOf env meetingId meetingNameWanted
    match downloadFiles env.smartDl env.outcome baseURL folderPath with
    | (mAtts, some e) =>
      { attempts := mAtts, dirsCreated := provisionDirs folderPath,
        sentinelWritten := false, fatal := some (.escapedFetch e) }
    | (mAtts, none) =>
      let s := downloadSlidesRun env.smartDl env.outcome baseURL folderPath
                 (metadataAfter env baseURL)
      match s.status with
      | some e =>
        { attempts := mAtts ++ s.attempts,
          dirsCreated := provisionDirs folderPath ++ s.mkdirs,
          sentinelWritten := false, fatal := some (.slides e) }
      | none =>
        { attempts := mAtts ++ s.attempts,
          dirsCreated := provisionDirs folderPath ++ s.mkdirs,
          sentinelWritten := true, fatal := none }

/-- `downloadScript(inputURL, meetingNameWanted)` (bbb-player.py:249-308):
the id pattern is matched first; on failure the run exits with no fetch
and no directory creation. -/
def downloadScript (env : Env) (inputURL meetingNameWanted : String) :
    RunResult :=
  match searchURL inputURL.data with
  | none =>
    { attempts := [], dirsCreated := [], sentinelWritten := false,
      fatal := some .invalidURL }
  | some (_, meetingId) => downloadScriptCore env meetingId meetingNameWanted

/-! ## The UI listing boundary (`hello`, bbb-player.py:219-239) -/

/-- Lexicographic comparison of character lists by code point: exactly
Python's string `<=`. -/
def charListLe : List Char → List Char → Bool
  | [], _ => true
  | _ :: _, [] => false
  | a :: as, b :: bs =>
    if a < b then true else if b < a then false else charListLe as bs

/-- Python string comparison: lexicographic on code points. -/
def strLe (a b : String) : Bool := charListLe a.data b.data

/-- Insert a string into an already-sorted list, before the first
element it is `≤`. -/
def insertSorted (s : String) : List String → List String
  | [] => [s]
  | t :: rest => if strLe s t then s :: t :: rest else t :: insertSorted s rest

/-- `sorted(...)` on strings: Python sorts by code point.  Modelled as
insertion sort over the `String` order; on a total order this produces
the same list as any other sort (elements comparing equal are
identical strings). -/
def sortStrings : List String → List String
  | [] => []
  | s :: rest => insertSorted s (sortStrings rest)

/-- `hello` (bbb-player.py:219-239): `folders` is the `isdir`-filtered
listing of the meetings root and `hasIndexAndManifest m` says whether
`m` contains both `index.html` and `asset-manifest.json`.  Each meeting
gets a link to the 2.3 player's `index.html` when both marker files are
present, else to the 2.0 player's `player/playback.html`. -/
def helloLinks (folders : List String) (hasIndexAndManifest : String → Bool) :
    List (String × String) :=
  (sortStrings folders).map (fun m =>
    if hasIndexAndManifest m then
      ("/downloadedMeetings/" ++ m ++ "/index.html", m)
    else
      ("/downloadedMeetings/" ++ m ++ "/player/playback.html", m))

/-- Claim C9 as stated: the UI's output is a function of exactly two
facts — the lexicographically sorted list of session directory names,
and, per directory, whether it contains the completion sentinel. -/
def helloUsesOnlyListingAndSentinel : Prop :=
  ∃ f : List String → (String → Bool) → List (String × String),
    ∀ (folders : List String) (hasIndexAndManifest hasSentinel : String → Bool),
      helloLinks folders hasIndexAndManifest = f (sortStrings folders) hasSentinel

/-! ## Derived observables and sample environments -/

/-- Did the run abort because a manifest-loop fetch exception escaped
its handlers?  (Shown below to be impossible.) -/
def fatalFromManifest : Option Fatal → Bool
  | some (.escapedFetch _) => true
  | _ => false

/-- Did the run abort inside `downloadSlides`? -/
def fatalFromSlides : Option Fatal → Bool
  | some (.slides _) => true
  | _ => false

/-- The local metadata reads and parses as a document on which the
expansion runs to the end of its loops. -/
def metadataOk : Option (Except Unit Json) → Bool
  | some (.ok j) => wellShaped j
  | _ => false

/-- The fetch iteration evaluated the undefined name `bar`, raised
`NameError`, retrieved nothing, and the generic `except Exception`
handler logged the traceback and swallowed it. -/
def attemptIsSwallowedNameError (a : Attempt) : Bool :=
  match a.raised with
  | .error .nameError => a.logs = [.exceptionTrace] && a.propagated = none
  | _ => false

/-- An environment without the accelerated backend (`pySmartDL` absent)
against a fresh target directory: no pre-existing metadata file, no
sentinel. -/
def noBackendEnv (outcome : String → FetchOutcome)
    (pre : Option (Except Unit Json)) : Env :=
  { smartDl := false, outcome := outcome, scheme := "https",
    netloc := "host", scriptDir := "/app", localMetadataPre := pre,
    remoteMetadata := .ok (.obj []), sentinelPre := false }

/-- An environment where every remote fetch 404s but a parseable,
well-shaped metadata file is already on disk. -/
def all404Env : Env :=
  { smartDl := true, outcome := fun _ => .httpError 404, scheme := "https",
    netloc := "host", scriptDir := "/app",
    localMetadataPre := some (.ok (.obj [])),
    remoteMetadata := .ok (.obj []), sentinelPre := false }

/-- A fully healthy environment: backend present, every fetch succeeds,
the remote metadata is one element with three slides. -/
def happyEnv : Env :=
  { smartDl := true, outcome := fun _ => .success, scheme := "https",
    netloc := "host", scriptDir := "/app", localMetadataPre := none,
    remoteMetadata := .ok (.obj [("e1", .arr [.null, .null, .null])]),
    sentinelPre := false }

/-- `happyEnv` after a completed run: the sentinel file exists. -/
def doneEnv : Env :=
  { smartDl := true, outcome := fun _ => .success, scheme := "https",
    netloc := "host", scriptDir := "/app",
    localMetadataPre := some (.ok (.obj [])),
    remoteMetadata := .ok (.obj []), sentinelPre := true }

/-- A session URL whose path matches the id pattern. -/
def sampleSessionURL : String :=
  "https://host/playback/presentation/2.3/abcdefabcdefabcdefabcdefabcdefabcdefabcd-1234567890123/"

/-- The session id captured from `sampleSessionURL`. -/
def sampleSessionId : String :=
  "abcdefabcdefabcdefabcdefabcdefabcdefabcd-1234567890123"

/-! ## Supporting lemmas -/

theorem runHandlers_snd (e : PyExc) : (runHandlers e).2 = none := by
  cases e <;> simp [runHandlers]

theorem attemptFile_propagated (smartDl : Bool) (outcome : String → FetchOutcome)
    (u p : String) : (attemptFile smartDl outcome u p).propagated = none := by
  unfold attemptFile
  cases fetchBody smartDl (outcome u) <;> simp [runHandlers_snd]

theorem attemptFile_url (smartDl : Bool) (outcome : String → FetchOutcome)
    (u p : String) : (attemptFile smartDl outcome u p).url = u := by
  unfold attemptFile
  cases fetchBody smartDl (outcome u) <;> rfl

theorem attemptFile_savePath (smartDl : Bool) (outcome : String → FetchOutcome)
    (u p : String) : (attemptFile smartDl outcome u p).savePath = p := by
  unfold attemptFile
  cases fetchBody smartDl (outcome u) <;> rfl

/-- The fetch loop never aborts and attempts exactly its input list:
every iteration's exception is swallowed by one of the two handlers. -/
theorem runFetchLoop_eq (smartDl : Bool) (outcome : String → FetchOutcome) :
    ∀ l : List (String × String),
      runFetchLoop smartDl outcome l =
        (l.map (fun p => attemptFile smartDl outcome p.1 p.2), none)
  | [] => rfl
  | p :: rest => by
    simp [runFetchLoop, attemptFile_propagated,
      runFetchLoop_eq smartDl outcome rest]

theorem processEntry_status (smartDl : Bool) (outcome : String → FetchOutcome)
    (baseURL basePath element : String) (v : Json) :
    (processEntry smartDl outcome baseURL basePath element v).status =
      if (lenPy v).isSome then none else some .uncaughtExc := by
  unfold processEntry
  cases h : lenPy v <;> simp [runFetchLoop_eq]

theorem processEntries_status (smartDl : Bool) (outcome : String → FetchOutcome)
    (baseURL basePath : String) :
    ∀ entries : List (String × Json),
      ((processEntries smartDl outcome baseURL basePath entries).status = none ↔
        entries.all (fun kv => (lenPy kv.2).isSome) = true)
  | [] => by simp [processEntries]
  | (k, v) :: rest => by
    have ih := processEntries_status smartDl outcome baseURL basePath rest
    simp only [processEntries]
    rw [processEntry_status]
    by_cases hv : (lenPy v).isSome
    · simp only [hv, if_true]
      simpa [hv] using ih
    · simp [hv]

theorem downloadSlidesRun_status (smartDl : Bool) (outcome : String → FetchOutcome)
    (baseURL basePath : String) (metadata : Option (Except Unit Json)) :
    ((downloadSlidesRun smartDl outcome baseURL basePath metadata).status = none ↔
      metadataOk metadata = true) := by
  match metadata with
  | none => simp [downloadSlidesRun, metadataOk]
  | some (.error _) => simp [downloadSlidesRun, metadataOk]
  | some (.ok j) =>
    simp only [downloadSlidesRun, metadataOk]
    match j with
    | .null | .bool _ | .num _ => simp [downloadSlidesData, wellShaped]
    | .str s => by_cases h : s.isEmpty <;> simp [downloadSlidesData, wellShaped, h]
    | .arr items => by_cases h : items.isEmpty <;> simp [downloadSlidesData, wellShaped, h]
    | .obj entries =>
      simpa [downloadSlidesData, wellShaped] using
        processEntries_status smartDl outcome baseURL basePath entries

/-- Unfolding of a run that was not short-circuited by the sentinel:
the manifest loop attempts everything and never aborts, so the run
always reaches the expansion phase, and the sentinel is written exactly
when the expansion returns normally. -/
theorem downloadScriptCore_eq (env : Env) (mid name : String)
    (h : env.sentinelPre = false) :
    downloadScriptCore env mid name =
      (match (downloadSlidesRun env.smartDl env.outcome (baseURLOf env mid)
          (folderPathOf env mid name)
          (metadataAfter env (baseURLOf env mid))) with
      | ⟨sAtts, sDirs, some e⟩ =>
        { attempts := (manifestPairs (baseURLOf env mid) (folderPathOf env mid name)).map
            (fun p => attemptFile env.smartDl env.outcome p.1 p.2) ++ sAtts,
          dirsCreated := provisionDirs (folderPathOf env mid name) ++ sDirs,
          sentinelWritten := false, fatal := some (.slides e) }
      | ⟨sAtts, sDirs, none⟩ =>
        { attempts := (manifestPairs (baseURLOf env mid) (folderPathOf env mid name)).map
            (fun p => attemptFile env.smartDl env.outcome p.1 p.2) ++ sAtts,
          dirsCreated := provisionDirs (folderPathOf env mid name) ++ sDirs,
          sentinelWritten := true, fatal := none }) := by
  unfold downloadScriptCore
  simp only [h, Bool.false_eq_true, if_false, downloadFiles, runFetchLoop_eq]
  cases hs : downloadSlidesRun env.smartDl env.outcome (baseURLOf env mid)
      (folderPathOf env mid name) (metadataAfter env (baseURLOf env mid)) with
  | mk sAtts sDirs status => cases status <;> simp

theorem downloadScriptCore_sentinel (env : Env) (mid name : String)
    (h : env.sentinelPre = false) :
    ((downloadScriptCore env mid name).sentinelWritten = true ↔
      (downloadSlidesRun env.smartDl env.outcome (baseURLOf env mid)
        (folderPathOf env mid name)
        (metadataAfter env (baseURLOf env mid))).status = none) := by
  rw [downloadScriptCore_eq env mid name h]
  cases hs : downloadSlidesRun env.smartDl env.outcome (baseURLOf env mid)
      (folderPathOf env mid name) (metadataAfter env (baseURLOf env mid)) with
  | mk sAtts sDirs status => cases status <;> simp

theorem matchG2_shape {l h d : List Char} (e : matchG2 l = some (h, d)) :
    h.length = 40 ∧ h.all isHexChar = true ∧
    d.length = 13 ∧ d.all Char.isDigit = true := by
  unfold matchG2 at e
  split at e
  case isTrue h1 =>
    split at e
    case h_1 c r2 heq =>
      split at e
      case isTrue h2 =>
        rw [Option.some_inj] at e
        injection e with e1 e2
        subst e1
        subst e2
        simp only [Bool.and_eq_true, decide_eq_true_eq] at h1 h2
        exact ⟨h1.1, h1.2, h2.1, h2.2⟩
      case isFalse => exact absurd e (by simp)
    case h_2 => exact absurd e (by simp)
  case isFalse => exact absurd e (by simp)

theorem findG2_shape : ∀ {l h d : List Char}, findG2 l = some (h, d) →
    h.length = 40 ∧ h.all isHexChar = true ∧
    d.length = 13 ∧ d.all Char.isDigit = true
  | [], _, _, e => by simp [findG2] at e
  | c :: rest, h, d, e => by
    unfold findG2 at e
    split at e
    case h_1 r heq =>
      rw [Option.some_inj] at e
      subst e
      exact matchG2_shape heq
    case h_2 =>
      split at e
      · exact absurd e (by simp)
      · exact findG2_shape e

theorem tryAt_shape {l : List Char} {g1 g2 : String}
    (e : tryAt l = some (g1, g2)) : sessionIdShape g2 := by
  unfold tryAt at e
  split at e
  case h_1 => exact absurd e (by simp)
  case h_2 g1x rest heq =>
    split at e
    case h_1 => exact absurd e (by simp)
    case h_2 hx dx heq2 =>
      rw [Option.some_inj] at e
      obtain ⟨h1, h2, h3, h4⟩ := findG2_shape heq2
      refine ⟨hx, dx, ?_, h1, h2, h3, h4⟩
      exact (congrArg Prod.snd e).symm

theorem searchURL_shape : ∀ {l : List Char} {g1 g2 : String},
    searchURL l = some (g1, g2) → sessionIdShape g2
  | [], _, _, e => by simp [searchURL] at e
  | c :: rest, g1, g2, e => by
    unfold searchURL at e
    split at e
    case h_1 r heq =>
      rw [Option.some_inj] at e
      subst e
      exact tryAt_shape heq
    case h_2 => exact searchURL_shape e

theorem attemptFile_noBackend (outcome : String → FetchOutcome) (u p : String) :
    attemptIsSwallowedNameError (attemptFile false outcome u p) = true := rfl

theorem all_map_noBackend (outcome : String → FetchOutcome)
    (l : List (String × String)) :
    ((l.map (fun p => attemptFile false outcome p.1 p.2)).all
      attemptIsSwallowedNameError) = true := by
  induction l with
  | nil => rfl
  | cons p rest ih => simp [attemptFile_noBackend, ih]

theorem runFetchLoop_noBackend_all (outcome : String → FetchOutcome)
    (l : List (String × String)) :
    ((runFetchLoop false outcome l).1.all attemptIsSwallowedNameError) = true := by
  rw [runFetchLoop_eq]
  exact all_map_noBackend outcome l

theorem processEntry_noBackend_all (outcome : String → FetchOutcome)
    (baseURL basePath k : String) (v : Json) :
    ((processEntry false outcome baseURL basePath k v).attempts.all
      attemptIsSwallowedNameError) = true := by
  unfold processEntry
  cases lenPy v <;>
    simp [runFetchLoop_eq, List.all_append, all_map_noBackend]

theorem processEntries_noBackend_all (outcome : String → FetchOutcome)
    (baseURL basePath : String) : ∀ entries : List (String × Json),
    ((processEntries false outcome baseURL basePath entries).attempts.all
      attemptIsSwallowedNameError) = true
  | [] => by simp [processEntries]
  | (k, v) :: rest => by
    have ih := processEntries_noBackend_all outcome baseURL basePath rest
    have h1 := processEntry_noBackend_all outcome baseURL basePath k v
    simp only [processEntries]
    cases hst : (processEntry false outcome baseURL basePath k v).status <;>
      simp_all [List.all_append]

theorem downloadSlidesRun_noBackend_all (outcome : String → FetchOutcome)
    (baseURL basePath : String) (metadata : Option (Except Unit Json)) :
    ((downloadSlidesRun false outcome baseURL basePath metadata).attempts.all
      attemptIsSwallowedNameError) = true := by
  match metadata with
  | none => rfl
  | some (.error _) => rfl
  | some (.ok j) =>
    match j with
    | .null | .bool _ | .num _ =>
      simp [downloadSlidesRun, downloadSlidesData]
    | .str s =>
      by_cases h : s.isEmpty <;> simp [downloadSlidesRun, downloadSlidesData, h]
    | .arr items =>
      by_cases h : items.isEmpty <;> simp [downloadSlidesRun, downloadSlidesData, h]
    | .obj entries =>
      simpa [downloadSlidesRun, downloadSlidesData] using
        processEntries_noBackend_all outcome baseURL basePath entries

theorem mem_insertSorted {s a : String} :
    ∀ {l : List String}, a ∈ insertSorted s l ↔ a = s ∨ a ∈ l
  | [] => by simp [insertSorted]
  | t :: rest => by
    by_cases h : strLe s t
    · simp [insertSorted, h]
    · simp [insertSorted, h, mem_insertSorted (l := rest)]
      tauto

theorem mem_sortStrings {a : String} :
    ∀ {l : List String}, a ∈ sortStrings l ↔ a ∈ l
  | [] => Iff.rfl
  | s :: rest => by
    simp [sortStrings, mem_insertSorted, mem_sortStrings (l := rest)]

/-! ## Claims -/

/-- C1: the completion sentinel is written if and only if both the
fixed-manifest fetch phase (`downloadFiles`) and the slide-expansion
phase (`downloadSlides`) return control normally, regardless of how many
individual per-file fetches failed; a fatal error in either phase
prevents the sentinel. -/
theorem completion_marker_iff_phases_return (env : Env) (mid name : String)
    (h : env.sentinelPre = false) :
    ((downloadScriptCore env mid name).sentinelWritten = true ↔
      ((downloadFiles env.smartDl env.outcome (baseURLOf env mid)
          (folderPathOf env mid name)).2 = none ∧
        (downloadSlidesRun env.smartDl env.outcome (baseURLOf env mid)
          (folderPathOf env mid name)
          (metadataAfter env (baseURLOf env mid))).status = none)) := by
  rw [downloadScriptCore_sentinel env mid name h, downloadFiles, runFetchLoop_eq]
  simp

theorem completion_marker_iff_phases_return_witness :
    ((downloadScriptCore all404Env "mid" "").sentinelWritten = true ↔
      ((downloadFiles all404Env.smartDl all404Env.outcome (baseURLOf all404Env "mid")
          (folderPathOf all404Env "mid" "")).2 = none ∧
        (downloadSlidesRun all404Env.smartDl all404Env.outcome (baseURLOf all404Env "mid")
          (folderPathOf all404Env "mid" "")
          (metadataAfter all404Env (baseURLOf all404Env "mid"))).status = none)) :=
  completion_marker_iff_phases_return all404Env "mid" "" rfl

/-- C2: every manifest entry is attempted, in declared order, whatever
the outcome of each fetch (so a failure at position k never skips
k+1..N); the manifest loop never aborts, and the run proceeds past it,
ending either at the written sentinel or in the expansion phase. -/
theorem manifest_failure_isolation (env : Env) (baseURL basePath mid name : String)
    (h : env.sentinelPre = false) :
    ((downloadFiles env.smartDl env.outcome baseURL basePath).1.map Attempt.url =
      filesForDL.map (fun f => baseURL ++ f)) ∧
    (downloadFiles env.smartDl env.outcome baseURL basePath).2 = none ∧
    ((downloadScriptCore env mid name).sentinelWritten = true ∨
      fatalFromSlides (downloadScriptCore env mid name).fatal = true) := by
  refine ⟨?_, ?_, ?_⟩
  · rw [downloadFiles, runFetchLoop_eq]
    simp [manifestPairs, attemptFile_url]
  · rw [downloadFiles, runFetchLoop_eq]
  · rw [downloadScriptCore_eq env mid name h]
    cases hs : downloadSlidesRun env.smartDl env.outcome (baseURLOf env mid)
        (folderPathOf env mid name) (metadataAfter env (baseURLOf env mid)) with
    | mk sAtts sDirs status => cases status <;> simp [fatalFromSlides]

theorem manifest_failure_isolation_witness :
    ((downloadFiles all404Env.smartDl all404Env.outcome "b/" "p").1.map Attempt.url =
      filesForDL.map (fun f => "b/" ++ f)) ∧
    (downloadFiles all404Env.smartDl all404Env.outcome "b/" "p").2 = none ∧
    ((downloadScriptCore all404Env "mid" "n").sentinelWritten = true ∨
      fatalFromSlides (downloadScriptCore all404Env "mid" "n").fatal = true) :=
  manifest_failure_isolation all404Env "b/" "p" "mid" "n" rfl

/-- C3 counterexample: the claim says every non-404 transport error is
logged; but a non-404 `HTTPError` (here status 500) is caught by the
`except urllib.error.HTTPError` clause, whose body logs only on
`e.code == 404`, so it is swallowed with no log at all. -/
theorem fetch_nonNotFound_http_silently_swallowed :
    ¬ (∀ e : PyExc, e ≠ PyExc.httpError 404 → (runHandlers e).1 ≠ []) :=
  fun h => h (PyExc.httpError 500) (by decide) rfl

/-- C3 amended: a 404 is logged at warning level and not re-raised; a
non-404 HTTP error is swallowed silently (no log); every non-HTTP
exception (including the `bar` `NameError`) is logged with the full
traceback and swallowed; in no case does the exception propagate, so
the loop continues with the next file. -/
theorem per_fetch_error_handling (c : Nat) (h : c ≠ 404) :
    runHandlers (PyExc.httpError 404) = ([LogEvent.warning404], none) ∧
    runHandlers (PyExc.httpError c) = ([], none) ∧
    runHandlers PyExc.other = ([LogEvent.exceptionTrace], none) ∧
    runHandlers PyExc.nameError = ([LogEvent.exceptionTrace], none) := by
  refine ⟨rfl, ?_, rfl, rfl⟩
  simp [runHandlers, h]

theorem per_fetch_error_handling_witness :
    runHandlers (PyExc.httpError 404) = ([LogEvent.warning404], none) ∧
    runHandlers (PyExc.httpError 500) = ([], none) ∧
    runHandlers PyExc.other = ([LogEvent.exceptionTrace], none) ∧
    runHandlers PyExc.nameError = ([LogEvent.exceptionTrace], none) :=
  per_fetch_error_handling 500 (by decide)

theorem processEntries_count (smartDl : Bool) (outcome : String → FetchOutcome)
    (baseURL basePath : String) :
    ∀ entries : List (String × Json),
      (∀ kv ∈ entries, (lenPy kv.2).isSome = true) →
      (processEntries smartDl outcome baseURL basePath entries).attempts.length =
        2 * (entries.map (fun kv => (lenPy kv.2).getD 0)).sum
  | [], _ => rfl
  | (k, v) :: rest, h => by
    have hv := h (k, v) (List.mem_cons_self _ _)
    obtain ⟨n, hn⟩ := Option.isSome_iff_exists.mp hv
    have ih := processEntries_count smartDl outcome baseURL basePath rest
      (fun kv hkv => h kv (List.mem_cons_of_mem _ hkv))
    simp only [processEntries, processEntry, hn]
    simp [runFetchLoop_eq, slidePairs, thumbPairs, ih, hn]
    ring

/-- C4: for the metadata document `{"e1": [t1,t2,t3]}` the expander
attempts exactly the three slide URLs then the three thumbnail URLs for
`e1`, at those remote paths under the base URL, in exactly that order;
and in general the expansion makes `2 × Σ slideCount` fetch attempts. -/
theorem expander_order_and_count (smartDl : Bool) (outcome : String → FetchOutcome)
    (baseURL basePath : String) (t1 t2 t3 : Json)
    (entries : List (String × Json))
    (hlen : ∀ kv ∈ entries, (lenPy kv.2).isSome = true) :
    ((downloadSlidesData smartDl outcome baseURL basePath
        (Json.obj [("e1", Json.arr [t1, t2, t3])])).attempts.map Attempt.url =
      [baseURL ++ "presentation/e1/slide-1.png",
       baseURL ++ "presentation/e1/slide-2.png",
       baseURL ++ "presentation/e1/slide-3.png",
       baseURL ++ "presentation/e1/thumbnails/thumb-1.png",
       baseURL ++ "presentation/e1/thumbnails/thumb-2.png",
       baseURL ++ "presentation/e1/thumbnails/thumb-3.png"]) ∧
    ((processEntries smartDl outcome baseURL basePath entries).attempts.length =
      2 * (entries.map (fun kv => (lenPy kv.2).getD 0)).sum) := by
  constructor
  · simp only [downloadSlidesData, processEntries, processEntry, lenPy,
      List.length_cons, List.length_nil]
    simp [runFetchLoop_eq, slidePairs, thumbPairs, List.range_succ,
      attemptFile_url, String.append_assoc]
    exact ⟨rfl, rfl, rfl, rfl, rfl, rfl⟩
  · exact processEntries_count smartDl outcome baseURL basePath entries hlen

theorem expander_order_and_count_witness :
    ((downloadSlidesData true (fun _ => FetchOutcome.success) "b/" "p"
        (Json.obj [("e1", Json.arr [Json.null, Json.null, Json.null])])).attempts.map
        Attempt.url =
      ["b/" ++ "presentation/e1/slide-1.png",
       "b/" ++ "presentation/e1/slide-2.png",
       "b/" ++ "presentation/e1/slide-3.png",
       "b/" ++ "presentation/e1/thumbnails/thumb-1.png",
       "b/" ++ "presentation/e1/thumbnails/thumb-2.png",
       "b/" ++ "presentation/e1/thumbnails/thumb-3.png"]) ∧
    ((processEntries true (fun _ => FetchOutcome.success) "b/" "p"
        [("e1", Json.arr [Json.null, Json.null, Json.null])]).attempts.length =
      2 * ([("e1", Json.arr [Json.null, Json.null, Json.null])].map
        (fun kv => (lenPy kv.2).getD 0)).sum) :=
  expander_order_and_count true (fun _ => FetchOutcome.success) "b/" "p"
    Json.null Json.null Json.null
    [("e1", Json.arr [Json.null, Json.null, Json.null])] (by decide)

/-- C5 counterexample: the claim says the expansion phase is fatal if
and only if the metadata file cannot be opened or parsed.  But the
document `5` is opened and parsed successfully (`json.load` accepts a
top-level number) and the phase is still fatal: `for element in data`
raises an uncaught `TypeError`. -/
theorem slides_fatal_beyond_open_parse :
    ¬ (∀ (smartDl : Bool) (outcome : String → FetchOutcome)
        (baseURL basePath : String) (metadata : Option (Except Unit Json)),
        ((downloadSlidesRun smartDl outcome baseURL basePath metadata).status ≠ none ↔
          (metadata = none ∨ metadata = some (Except.error ())))) := by
  intro h
  have hc := (h true (fun _ => FetchOutcome.success) "b/" "p"
      (some (Except.ok (Json.num 5)))).mp (by simp [downloadSlidesRun, downloadSlidesData])
  rcases hc with hc | hc <;> simp at hc

/-- C5 amended: the expansion phase is fatal if and only if the
metadata file cannot be opened, cannot be parsed, or parses to a
document on which the expansion loop raises an uncaught exception —
any number, boolean or null document, any nonempty list or nonempty
string document, or a mapping with a value that does not support
`len()`.  A mapping whose every value supports `len()` returns
normally, as do the degenerate documents `[]` and `""`, whose loop
iterates zero times.  No per-file fetch outcome is ever fatal. -/
theorem slides_fatal_iff_metadata_bad (smartDl : Bool)
    (outcome : String → FetchOutcome) (baseURL basePath : String)
    (metadata : Option (Except Unit Json)) :
    ((downloadSlidesRun smartDl outcome baseURL basePath metadata).status ≠ none ↔
      metadataOk metadata = false) := by
  have h := downloadSlidesRun_status smartDl outcome baseURL basePath metadata
  cases hst : (downloadSlidesRun smartDl outcome baseURL basePath metadata).status <;>
    cases hmo : metadataOk metadata <;> simp_all

/-- C6: when the target directory already holds the sentinel file, the
run makes no fetch attempt, creates no directory, and writes nothing
(the sentinel is not rewritten): the pipeline is an idempotent
short-circuit. -/
theorem sentinel_short_circuit (env : Env) (url name : String)
    (h : env.sentinelPre = true) :
    (downloadScript env url name).attempts = [] ∧
    (downloadScript env url name).dirsCreated = [] ∧
    (downloadScript env url name).sentinelWritten = false := by
  unfold downloadScript
  cases hs : searchURL url.data with
  | none => exact ⟨rfl, rfl, rfl⟩
  | some r =>
    cases r with
    | mk g1 g2 =>
      unfold downloadScriptCore
      simp [h]

theorem sentinel_short_circuit_witness :
    (downloadScript doneEnv sampleSessionURL "name").attempts = [] ∧
    (downloadScript doneEnv sampleSessionURL "name").dirsCreated = [] ∧
    (downloadScript doneEnv sampleSessionURL "name").sentinelWritten = false :=
  sentinel_short_circuit doneEnv sampleSessionURL "name" rfl

/-- C7: when the session-id pattern does not match, the run aborts
fatally with no fetch attempted and no directory created; when it
matches, the captured session id is exactly 40 hex characters, a `-`,
and 13 decimal digits. -/
theorem resolver_contract (env : Env) (s name : String) :
    (searchURL s.data = none →
      downloadScript env s name =
        { attempts := [], dirsCreated := [], sentinelWritten := false,
          fatal := some .invalidURL }) ∧
    (∀ g1 g2 : String, searchURL s.data = some (g1, g2) → sessionIdShape g2) := by
  constructor
  · intro h
    unfold downloadScript
    rw [h]
  · intro g1 g2 h
    exact searchURL_shape h

theorem resolver_contract_witness :
    (downloadScript doneEnv "no-session-id-here" "" =
      { attempts := [], dirsCreated := [], sentinelWritten := false,
        fatal := some .invalidURL }) ∧ sessionIdShape sampleSessionId :=
  ⟨(resolver_contract doneEnv "no-session-id-here" "").1 rfl,
   (resolver_contract doneEnv sampleSessionURL "").2 "2.3" sampleSessionId rfl⟩

/-- C8: after a successful parse, the run proceeds with the captured
meeting id; the remote base URL is `scheme://netloc/presentation/<id>/`
and the local directory is `<meetingsRoot>/<name>` for a supplied
(nonempty) name, else `<meetingsRoot>/<id>`. -/
theorem resolver_derivation (env : Env) (s name v mid : String)
    (hm : searchURL s.data = some (v, mid)) (hn : name ≠ "") :
    downloadScript env s name = downloadScriptCore env mid name ∧
    baseURLOf env mid =
      env.scheme ++ "://" ++ env.netloc ++ "/presentation/" ++ mid ++ "/" ∧
    folderPathOf env mid name = joinPath (meetingsRootOf env) name ∧
    folderPathOf env mid "" = joinPath (meetingsRootOf env) mid := by
  refine ⟨?_, rfl, ?_, ?_⟩
  · unfold downloadScript
    rw [hm]
  · unfold folderPathOf
    simp [hn]
  · rfl

theorem resolver_derivation_witness :
    downloadScript happyEnv sampleSessionURL "myname" =
      downloadScriptCore happyEnv sampleSessionId "myname" ∧
    baseURLOf happyEnv sampleSessionId =
      happyEnv.scheme ++ "://" ++ happyEnv.netloc ++ "/presentation/" ++
        sampleSessionId ++ "/" ∧
    folderPathOf happyEnv sampleSessionId "myname" =
      joinPath (meetingsRootOf happyEnv) "myname" ∧
    folderPathOf happyEnv sampleSessionId "" =
      joinPath (meetingsRootOf happyEnv) sampleSessionId :=
  resolver_derivation happyEnv sampleSessionURL "myname" "2.3" sampleSessionId
    rfl (by decide)

/-- C9 counterexample: the UI's output is not a function of the sorted
directory listing plus sentinel presence.  Two worlds that agree on
both facts (same single directory, same sentinel state) produce
different pages, because `hello` actually branches on the presence of
`index.html` and `asset-manifest.json`, never on the sentinel. -/
theorem hello_not_determined_by_sentinel : ¬ helloUsesOnlyListingAndSentinel := by
  rintro ⟨f, hf⟩
  have h1 := hf ["a"] (fun _ => true) (fun _ => true)
  have h2 := hf ["a"] (fun _ => false) (fun _ => true)
  have h12 : helloLinks ["a"] (fun _ => true) = helloLinks ["a"] (fun _ => false) :=
    h1.trans h2.symm
  exact absurd h12 (by decide)

/-- C9 amended: the UI-facing boundary uses exactly two facts from the
core: the lexicographically sorted list of session directory names,
and, per listed directory, whether it contains both `index.html` and
`asset-manifest.json` (choosing which player page to link).  The first
conjunct shows the page is fully determined by these two facts; the
second and third show each of the two facts genuinely influences the
page.  The completion sentinel is not among them. -/
theorem hello_determined_by_listing_and_markers
    (folders1 folders2 : List String) (marks1 marks2 : String → Bool)
    (hsort : sortStrings folders1 = sortStrings folders2)
    (hmarks : ∀ m ∈ folders1, marks1 m = marks2 m) :
    (helloLinks folders1 marks1 = helloLinks folders2 marks2) ∧
    (helloLinks ["a"] (fun _ => true) ≠ helloLinks ["b"] (fun _ => true)) ∧
    (helloLinks ["a"] (fun _ => true) ≠ helloLinks ["a"] (fun _ => false)) := by
  refine ⟨?_, by decide, by decide⟩
  unfold helloLinks
  rw [← hsort]
  apply List.map_congr_left
  intro m hm
  rw [hmarks m (mem_sortStrings.mp hm)]

theorem hello_determined_by_listing_and_markers_witness :
    (helloLinks ["b", "a"] (fun _ => true) =
      helloLinks ["a", "b"] (fun m => m = "a" || m = "b")) ∧
    (helloLinks ["a"] (fun _ => true) ≠ helloLinks ["b"] (fun _ => true)) ∧
    (helloLinks ["a"] (fun _ => true) ≠ helloLinks ["a"] (fun _ => false)) :=
  hello_determined_by_listing_and_markers ["b", "a"] ["a", "b"]
    (fun _ => true) (fun m => m = "a" || m = "b") (by decide) (by decide)

/-- C10 counterexample: with the accelerated backend absent the claim
asserts the sentinel is still written; but in a fresh directory nothing
is ever retrieved (every fetch dies on the `bar` `NameError`), so
`presentation_text.json` does not exist locally, `downloadSlides` dies
opening it, and the sentinel is not written. -/
theorem no_backend_sentinel_refuted :
    ¬ (∀ (env : Env) (mid name : String), env.smartDl = false →
        env.sentinelPre = false →
        (downloadScriptCore env mid name).sentinelWritten = true) := by
  intro h
  exact absurd (h (noBackendEnv (fun _ => FetchOutcome.success) none) "m" "" rfl rfl)
    (by decide)

/-- C10 amended: without the accelerated backend every per-file fetch in
both phases evaluates the undefined name `bar`, raises `NameError`,
retrieves nothing, and is logged and swallowed by the generic handler;
the whole 13-entry manifest loop still runs; the local metadata file is
never (over)written; and the sentinel is written iff a pre-existing
local `presentation_text.json` parses to a document the expansion runs
to completion on — a mapping whose every value supports `len()`, or
one of the degenerate documents `[]` and `""` — while in a fresh
directory the metadata file was never downloaded, so the expansion
phase dies opening it and no sentinel appears. -/
theorem no_backend_run (outcome : String → FetchOutcome)
    (pre : Option (Except Unit Json)) (mid name : String) :
    ((downloadScriptCore (noBackendEnv outcome pre) mid name).attempts.all
      attemptIsSwallowedNameError = true) ∧
    ((downloadFiles false outcome (baseURLOf (noBackendEnv outcome pre) mid)
        (folderPathOf (noBackendEnv outcome pre) mid name)).1.length =
      filesForDL.length) ∧
    (metadataAfter (noBackendEnv outcome pre)
      (baseURLOf (noBackendEnv outcome pre) mid) = pre) ∧
    ((downloadScriptCore (noBackendEnv outcome pre) mid name).sentinelWritten = true ↔
      metadataOk pre = true) := by
  have hmeta : metadataAfter (noBackendEnv outcome pre)
      (baseURLOf (noBackendEnv outcome pre) mid) = pre := by
    simp [metadataAfter, noBackendEnv]
  refine ⟨?_, ?_, hmeta, ?_⟩
  · rw [downloadScriptCore_eq _ mid name rfl]
    simp only [show (noBackendEnv outcome pre).smartDl = false from rfl,
      show (noBackendEnv outcome pre).outcome = outcome from rfl]
    have hall := downloadSlidesRun_noBackend_all outcome
      (baseURLOf (noBackendEnv outcome pre) mid)
      (folderPathOf (noBackendEnv outcome pre) mid name)
      (metadataAfter (noBackendEnv outcome pre) (baseURLOf (noBackendEnv outcome pre) mid))
    cases hs : downloadSlidesRun false outcome (baseURLOf (noBackendEnv outcome pre) mid)
        (folderPathOf (noBackendEnv outcome pre) mid name)
        (metadataAfter (noBackendEnv outcome pre) (baseURLOf (noBackendEnv outcome pre) mid)) with
    | mk sAtts sDirs status =>
      rw [hs] at hall
      cases status <;>
        simpa [List.all_append, all_map_noBackend] using hall
  · rw [downloadFiles, runFetchLoop_eq]
    simp [manifestPairs]
  · rw [downloadScriptCore_sentinel _ mid name rfl, hmeta]
    have := downloadSlidesRun_status (noBackendEnv outcome pre).smartDl
      (noBackendEnv outcome pre).outcome (baseURLOf (noBackendEnv outcome pre) mid)
      (folderPathOf (noBackendEnv outcome pre) mid name) pre
    exact this

end BBB
